import Mathlib

/-!
Verification of the AK8963 magnetometer driver (`src/lib.rs`).

The driver talks to the chip over I2C.  We embed it shallowly:

* `f32` values are modelled as exact rationals (`ℚ`); every floating-point
  value the driver manipulates has a small power-of-two denominator, so the
  rational model is the intended real-number semantics of the formulas.
* Bytes (`u8`) are modelled as `Nat` values; where Rust `u8` arithmetic wraps,
  the model wraps explicitly modulo 256.
* The I2C bus is modelled by a scripted device: a record of the responses
  (bytes or errors) it gives to each bus transaction the driver performs, and
  each driver entry point returns, together with its result, the list of bus
  transactions it actually issued.
* A Rust panic (out-of-bounds slice index) is modelled by `Option`: `none`
  is a panic, `some r` is the value `r` returned normally.
-/

/-- Abstract stand-in for `i2cdev`'s `LinuxI2CError`; the driver never
inspects it, only propagates it. -/
structure LinuxI2CError where
  code : Nat
deriving DecidableEq, Repr

/-- `pub enum SampleRate` from the source. -/
inductive SampleRate
  | Opt8Hz
  | Opt100Hz
deriving DecidableEq, Repr

/-- `pub enum Sensitivity` from the source. -/
inductive Sensitivity
  | Opt14bit
  | Opt16bit
deriving DecidableEq, Repr

/-- `const MEAS_RANGE: f32 = 4912.0` (micro teslas). -/
def MEAS_RANGE : ℚ := 4912

/-- `Sensitivity::scalar`: `MEAS_RANGE / 8192.0` resp. `MEAS_RANGE / 32768.0`. -/
def Sensitivity.scalar : Sensitivity → ℚ
  | Sensitivity.Opt14bit => MEAS_RANGE / 8192
  | Sensitivity.Opt16bit => MEAS_RANGE / 32768

/-- `pub struct Ak8963Sample`: calibrated field (uT), raw registers, overrun flag. -/
structure Ak8963Sample where
  mag : List ℚ
  mag_raw : List Int
  data_overrun : Bool
deriving DecidableEq, Repr

/-- `pub enum ReadSampleError`. -/
inductive ReadSampleError
  | DataNotReady
  | I2c (e : LinuxI2CError)
deriving DecidableEq, Repr

/-- The driver state `pub struct Ak8963` (the `i2c_dev` handle is modelled
separately, as the scripted bus). -/
structure Ak8963 where
  factory_adjust : List ℚ
  sensitivity : Sensitivity
deriving DecidableEq, Repr

/-- `Ak8963Reg::St1 = 0x02`. -/
def Ak8963Reg.St1 : Nat := 0x02
/-- `Ak8963Reg::Hxl = 0x03`. -/
def Ak8963Reg.Hxl : Nat := 0x03
/-- `Ak8963Reg::Cntl1 = 0x0a`. -/
def Ak8963Reg.Cntl1 : Nat := 0x0a
/-- `Ak8963Reg::Asax = 0x10`. -/
def Ak8963Reg.Asax : Nat := 0x10

/-- `RegCntl1::PowerDn = 0`. -/
def RegCntl1.PowerDn : Nat := 0
/-- `RegCntl1::ContMeas1 = 0x02` (8 Hz sampling). -/
def RegCntl1.ContMeas1 : Nat := 0x02
/-- `RegCntl1::ContMeas2 = 0x06` (100 Hz sampling). -/
def RegCntl1.ContMeas2 : Nat := 0x06
/-- `RegCntl1::FuseRom = 0x0f`. -/
def RegCntl1.FuseRom : Nat := 0x0f
/-- `RegCntl1::Sensitivity16bit = 1 << 4`. -/
def RegCntl1.Sensitivity16bit : Nat := 16

/-- One axis of the factory-adjustment computation in
`read_sensitivity_adjustment`: `((buf[i] - 128) as f32)/256.0 + 1.0`.
`buf[i] - 128` is `u8` arithmetic: it wraps modulo 256 (release semantics;
a debug build panics when `buf[i] < 128`), and the wrapped `u8` is then cast
to `f32`, so the numerator is always in `0..=255`. -/
def factoryAdjustByte (b : Nat) : ℚ :=
  (((b % 256 + 128) % 256 : Nat) : ℚ) / 256 + 1

/-- The pure value content of `Ak8963::read_sensitivity_adjustment`: the
three-element adjustment vector built from the 3-byte ASAX fuse-ROM block. -/
def Ak8963.read_sensitivity_adjustment_vals (buf : List Nat) : List ℚ :=
  [factoryAdjustByte (buf.getD 0 0),
   factoryAdjustByte (buf.getD 1 0),
   factoryAdjustByte (buf.getD 2 0)]

/-- `LittleEndian::read_i16(&[lo, hi])`: little-endian signed 16-bit decode
of two bytes. -/
def readI16 (lo hi : Nat) : Int :=
  let u : Nat := lo % 256 + 256 * (hi % 256)
  if u < 32768 then (u : Int) else (u : Int) - 65536

/-- The body of `Ak8963::parse_sample_helper` under the assumption that all
slice indices are in bounds (as they are for the statically 7-byte buffer in
`read_sample`); out-of-range indices read as 0 here, and
`Ak8963.parse_sample_helper` below accounts for the panics. -/
def Ak8963.parse_sample_helper_inbounds (data : List Nat) (sensitivity : Sensitivity)
    (factory_adjust : List ℚ) : Option Ak8963Sample :=
  if (data.getD 6 0).testBit 3 then
    none
  else
    let mag_raw : List Int :=
      [readI16 (data.getD 0 0) (data.getD 1 0),
       readI16 (data.getD 2 0) (data.getD 3 0),
       readI16 (data.getD 4 0) (data.getD 5 0)]
    let mag : List ℚ :=
      List.zipWith (fun a r => sensitivity.scalar * a * (r : ℚ)) factory_adjust mag_raw
    some { mag := mag, mag_raw := mag_raw, data_overrun := false }

/-- `Ak8963::parse_sample_helper` with panic-aware semantics: every slice
index the Rust code performs unchecked (`data[6]`, then the byte pairs
`data[0..2]`, `data[2..4]`, `data[4..6]`) is modelled by `List.get?`, and a
failed lookup (`none` from the outer `Option`) models the panic. -/
def Ak8963.parse_sample_helper (data : List Nat) (sensitivity : Sensitivity)
    (factory_adjust : List ℚ) : Option (Option Ak8963Sample) := do
  let b6 ← data.get? 6
  if b6.testBit 3 then
    -- Magnet saturation
    return none
  let d0 ← data.get? 0
  let d1 ← data.get? 1
  let d2 ← data.get? 2
  let d3 ← data.get? 3
  let d4 ← data.get? 4
  let d5 ← data.get? 5
  let mag_raw : List Int := [readI16 d0 d1, readI16 d2 d3, readI16 d4 d5]
  let mag : List ℚ :=
    List.zipWith (fun a r => sensitivity.scalar * a * (r : ℚ)) factory_adjust mag_raw
  return some { mag := mag, mag_raw := mag_raw, data_overrun := false }

/-- `Ak8963::parse_sample_data`: takes `&mut self` but never mutates it, so the
model returns the state unchanged alongside the (panic-aware) parse result. -/
def Ak8963.parse_sample_data (ak : Ak8963) (data : List Nat) :
    Ak8963 × Option (Option Ak8963Sample) :=
  (ak, Ak8963.parse_sample_helper data ak.sensitivity ak.factory_adjust)

/-- The CNTL1 mode byte assembled in `Ak8963::initialize`. -/
def cntl1Byte (sensitivity : Sensitivity) (sample_rate : SampleRate) : Nat :=
  let b : Nat := 0
  let b : Nat :=
    match sensitivity with
    | Sensitivity.Opt14bit => b
    | Sensitivity.Opt16bit => b ||| RegCntl1.Sensitivity16bit
  match sample_rate with
  | SampleRate.Opt8Hz => b ||| RegCntl1.ContMeas1
  | SampleRate.Opt100Hz => b ||| RegCntl1.ContMeas2

/-- A bus transaction, as issued by the driver: an address/data write, or a
read of `n` bytes. -/
inductive BusOp
  | write (bytes : List Nat)
  | read (n : Nat)
deriving DecidableEq, Repr

/-- Scripted device behaviour for one `read_sample` call: for each of the four
bus transactions, either an error or (for reads) the bytes delivered. -/
structure SampleBus where
  st1WriteErr : Option LinuxI2CError
  statusErr : Option LinuxI2CError
  status : Nat
  hxlWriteErr : Option LinuxI2CError
  dataErr : Option LinuxI2CError
  data : List Nat
deriving DecidableEq, Repr

/-- The 7-byte read buffer of `read_sample`: `[0u8; 7]` zero-initialised, then
filled by the device (a conforming device delivers exactly 7 bytes). -/
def buf7 (l : List Nat) : List Nat :=
  (l ++ List.replicate 7 0).take 7

/-- The 3-byte read buffer of `read_sensitivity_adjustment`: `[0u8; 3]`
zero-initialised, then filled by the device. -/
def buf3 (l : List Nat) : List Nat :=
  (l ++ List.replicate 3 0).take 3

/-- The data-overrun step at the end of `read_sample`: if a sample was parsed
and status bit 1 (DOR) is set, mark `data_overrun`. -/
def applyDataOverrun (status : Nat) (s : Option Ak8963Sample) : Option Ak8963Sample :=
  match s with
  | none => none
  | some smp =>
    if status.testBit 1 then some { smp with data_overrun := true } else some smp

/-- `Ak8963::read_sample` against a scripted device: returns the (unchanged)
driver state, the list of bus transactions actually issued, and the result.
The 7-byte buffer is statically sized, so the parse step uses the in-bounds
helper body. -/
def Ak8963.read_sample (ak : Ak8963) (d : SampleBus) :
    Ak8963 × List BusOp × Except ReadSampleError (Option Ak8963Sample) :=
  let t1 : List BusOp := [BusOp.write [Ak8963Reg.St1]]
  match d.st1WriteErr with
  | some e => (ak, t1, Except.error (ReadSampleError.I2c e))
  | none =>
  let t2 : List BusOp := t1 ++ [BusOp.read 1]
  match d.statusErr with
  | some e => (ak, t2, Except.error (ReadSampleError.I2c e))
  | none =>
  -- Check DRDY (data ready) bit
  if ¬ d.status.testBit 0 then
    (ak, t2, Except.error ReadSampleError.DataNotReady)
  else
  let t3 : List BusOp := t2 ++ [BusOp.write [Ak8963Reg.Hxl]]
  match d.hxlWriteErr with
  | some e => (ak, t3, Except.error (ReadSampleError.I2c e))
  | none =>
  let t4 : List BusOp := t3 ++ [BusOp.read 7]
  match d.dataErr with
  | some e => (ak, t4, Except.error (ReadSampleError.I2c e))
  | none =>
  let sample := Ak8963.parse_sample_helper_inbounds (buf7 d.data)
    ak.sensitivity ak.factory_adjust
  (ak, t4, Except.ok (applyDataOverrun d.status sample))

/-- Scripted device behaviour for `Ak8963::new`: an error slot for each of the
six bus transactions it performs, and the 3 ASAX calibration bytes delivered
by the fuse-ROM read. -/
structure NewBus where
  e1 : Option LinuxI2CError
  e2 : Option LinuxI2CError
  e3 : Option LinuxI2CError
  e4 : Option LinuxI2CError
  e5 : Option LinuxI2CError
  e6 : Option LinuxI2CError
  calib : List Nat
deriving DecidableEq, Repr

/-- `Ak8963::new` against a scripted device: power-down, fuse-ROM entry, ASAX
address write, 3-byte calibration read, power-down (all inside
`read_sensitivity_adjustment`), then the CNTL1 mode-byte write from
`initialize`.  Returns the transactions issued and the constructed driver. -/
def Ak8963.new (d : NewBus) (sensitivity : Sensitivity) (sample_rate : SampleRate) :
    List BusOp × Except LinuxI2CError Ak8963 :=
  let t1 : List BusOp := [BusOp.write [Ak8963Reg.Cntl1, RegCntl1.PowerDn]]
  match d.e1 with
  | some e => (t1, Except.error e)
  | none =>
  let t2 : List BusOp := t1 ++ [BusOp.write [Ak8963Reg.Cntl1, RegCntl1.FuseRom]]
  match d.e2 with
  | some e => (t2, Except.error e)
  | none =>
  let t3 : List BusOp := t2 ++ [BusOp.write [Ak8963Reg.Asax]]
  match d.e3 with
  | some e => (t3, Except.error e)
  | none =>
  let t4 : List BusOp := t3 ++ [BusOp.read 3]
  match d.e4 with
  | some e => (t4, Except.error e)
  | none =>
  let factory_adjust := Ak8963.read_sensitivity_adjustment_vals (buf3 d.calib)
  let t5 : List BusOp := t4 ++ [BusOp.write [Ak8963Reg.Cntl1, RegCntl1.PowerDn]]
  match d.e5 with
  | some e => (t5, Except.error e)
  | none =>
  let t6 : List BusOp := t5 ++ [BusOp.write [Ak8963Reg.Cntl1, cntl1Byte sensitivity sample_rate]]
  match d.e6 with
  | some e => (t6, Except.error e)
  | none =>
  (t6, Except.ok { factory_adjust := factory_adjust, sensitivity := sensitivity })

/-! ## Helper lemmas -/

theorem parse_sample_helper_eq_inbounds (data : List Nat) (s : Sensitivity)
    (fa : List ℚ) (h : 7 ≤ data.length) :
    Ak8963.parse_sample_helper data s fa =
      some (Ak8963.parse_sample_helper_inbounds data s fa) := by
  rcases data with _ | ⟨d0, _ | ⟨d1, _ | ⟨d2, _ | ⟨d3, _ | ⟨d4, _ | ⟨d5, _ | ⟨d6, rest⟩⟩⟩⟩⟩⟩⟩ <;>
    simp at h
  by_cases h6 : d6.testBit 3 <;>
    simp [Ak8963.parse_sample_helper, Ak8963.parse_sample_helper_inbounds, h6]

theorem buf7_length (l : List Nat) : (buf7 l).length = 7 := by
  simp [buf7]

theorem buf7_of_length_seven (l : List Nat) (h : l.length = 7) : buf7 l = l := by
  simp [buf7, List.take_append_of_le_length, h]

theorem read_sample_fst (ak : Ak8963) (d : SampleBus) : (ak.read_sample d).1 = ak := by
  unfold Ak8963.read_sample
  rcases d with ⟨e1, e2, st, e3, e4, data⟩
  cases e1 <;> cases e2 <;> cases e3 <;> cases e4 <;> simp <;> split <;> simp

theorem read_sample_trace_cases (ak : Ak8963) (d : SampleBus) :
    (ak.read_sample d).2.1 = [BusOp.write [Ak8963Reg.St1]] ∨
    (ak.read_sample d).2.1 = [BusOp.write [Ak8963Reg.St1], BusOp.read 1] ∨
    (ak.read_sample d).2.1 =
      [BusOp.write [Ak8963Reg.St1], BusOp.read 1, BusOp.write [Ak8963Reg.Hxl]] ∨
    (ak.read_sample d).2.1 =
      [BusOp.write [Ak8963Reg.St1], BusOp.read 1, BusOp.write [Ak8963Reg.Hxl],
       BusOp.read 7] := by
  unfold Ak8963.read_sample
  rcases d with ⟨e1, e2, st, e3, e4, data⟩
  cases e1 <;> cases e2 <;> cases e3 <;> cases e4 <;> simp <;> split <;> simp

/-! ## Claims -/

/-- C1 (code bug): the per-axis factory adjustment is claimed to be
`(b − 128)/256 + 1` (so `0.5` at `b = 0`), but the code subtracts in `u8`
arithmetic, which wraps: at `b = 0` the code yields `3/2`, not `1/2` (and a
debug build panics).  At `b = 128` and `b = 255` the code does agree with the
claimed formula (`1` and `383/256 ≈ 1.496`). -/
theorem C1_factory_adjust_wraps_at_zero :
    factoryAdjustByte 0 = 3 / 2 ∧
    ((0 : ℚ) - 128) / 256 + 1 = 1 / 2 ∧
    factoryAdjustByte 0 ≠ ((0 : ℚ) - 128) / 256 + 1 ∧
    factoryAdjustByte 128 = 1 ∧
    factoryAdjustByte 255 = 383 / 256 ∧
    Ak8963.read_sensitivity_adjustment_vals [0, 128, 255] = [3 / 2, 1, 383 / 256] := by
  refine ⟨by norm_num [factoryAdjustByte], by norm_num, ?_, ?_, ?_, ?_⟩ <;>
    norm_num [factoryAdjustByte, Ak8963.read_sensitivity_adjustment_vals]

/-- C6: the CNTL1 mode byte is `0x16` for `Opt16bit` + `Opt100Hz` and `0x02`
for `Opt14bit` + `Opt8Hz`; for every combination the low nibble equals exactly
the selected rate code (`ContMeas1` for 8 Hz, `ContMeas2` for 100 Hz, which are
distinct), and bit 4 (the 16-bit sensitivity bit) is set iff the
high-resolution mode was selected. -/
theorem C6_cntl1_byte :
    cntl1Byte Sensitivity.Opt16bit SampleRate.Opt100Hz = 0x16 ∧
    cntl1Byte Sensitivity.Opt14bit SampleRate.Opt8Hz = 0x02 ∧
    RegCntl1.ContMeas1 ≠ RegCntl1.ContMeas2 ∧
    (∀ s r, (cntl1Byte s r) % 16 =
        (match r with
         | SampleRate.Opt8Hz => RegCntl1.ContMeas1
         | SampleRate.Opt100Hz => RegCntl1.ContMeas2) ∧
      ((cntl1Byte s r).testBit 4 = true ↔ s = Sensitivity.Opt16bit)) := by
  refine ⟨by decide, by decide, by decide, ?_⟩
  intro s r
  cases s <;> cases r <;> exact ⟨by decide, by decide⟩

/-- C3: for every 7-byte block whose byte 6 has bit 3 (the saturation flag)
set, the decoder returns absence (`None`), whatever the other six bytes, the
sensitivity mode and the calibration vector. -/
theorem C3_saturation_yields_absence (d0 d1 d2 d3 d4 d5 d6 : Nat)
    (s : Sensitivity) (fa : List ℚ) (h : d6.testBit 3 = true) :
    Ak8963.parse_sample_helper [d0, d1, d2, d3, d4, d5, d6] s fa = some none := by
  simp [Ak8963.parse_sample_helper, h]

/-- Witness for C3 at the concrete block `[17, 2, 3, 4, 5, 6, 8]`. -/
theorem C3_saturation_yields_absence_witness :
    (8 : Nat).testBit 3 = true ∧
    Ak8963.parse_sample_helper [17, 2, 3, 4, 5, 6, 8] Sensitivity.Opt16bit [1, 1, 1] =
      some none :=
  ⟨by decide,
   C3_saturation_yields_absence 17 2 3 4 5 6 8 Sensitivity.Opt16bit [1, 1, 1] (by decide)⟩

theorem parse_sample_helper_short (data : List Nat) (s : Sensitivity) (fa : List ℚ)
    (h : data.length < 7) : Ak8963.parse_sample_helper data s fa = none := by
  have h6 : data[6]? = none := by
    rw [List.getElem?_eq_none]
    omega
  simp [Ak8963.parse_sample_helper, h6]

/-- C2: for a non-saturated 7-byte block, the decoder succeeds; the raw vector
is the little-endian signed 16-bit decode of the byte pairs (characterised
below by congruence modulo 2^16 and the signed range), and each calibrated
axis is `scalar(mode) * calibration[i] * raw[i]`, with
`scalar(Opt14bit) = 4912/8192` and `scalar(Opt16bit) = 4912/32768`. -/
theorem C2_decode_formula (d0 d1 d2 d3 d4 d5 d6 : Nat) (a b c : ℚ)
    (s : Sensitivity) (h6 : d6.testBit 3 = false) :
    Ak8963.parse_sample_helper [d0, d1, d2, d3, d4, d5, d6] s [a, b, c] =
      some (some
        { mag := [s.scalar * a * ((readI16 d0 d1 : Int) : ℚ),
                  s.scalar * b * ((readI16 d2 d3 : Int) : ℚ),
                  s.scalar * c * ((readI16 d4 d5 : Int) : ℚ)],
          mag_raw := [readI16 d0 d1, readI16 d2 d3, readI16 d4 d5],
          data_overrun := false }) ∧
    (∀ lo hi : Nat, lo < 256 → hi < 256 →
      (readI16 lo hi) % 65536 = (lo : Int) + 256 * (hi : Int) ∧
      -32768 ≤ readI16 lo hi ∧ readI16 lo hi < 32768) ∧
    Sensitivity.Opt14bit.scalar = 4912 / 8192 ∧
    Sensitivity.Opt16bit.scalar = 4912 / 32768 := by
  refine ⟨?_, ?_, rfl, rfl⟩
  · simp [Ak8963.parse_sample_helper, h6]
  · intro lo hi hlo hhi
    rw [readI16]
    simp only [Nat.mod_eq_of_lt hlo, Nat.mod_eq_of_lt hhi]
    split <;> refine ⟨?_, ?_, ?_⟩ <;> push_cast <;> omega

/-- Witness for C2 at block `[1, 128, 255, 127, 0, 0, 0]`, mode `Opt16bit`,
calibration `[1, 1/2, 2]`. -/
theorem C2_decode_formula_witness :
    (0 : Nat).testBit 3 = false ∧
    Ak8963.parse_sample_helper [1, 128, 255, 127, 0, 0, 0] Sensitivity.Opt16bit
        [1, 1 / 2, 2] =
      some (some
        { mag := [Sensitivity.Opt16bit.scalar * 1 * ((readI16 1 128 : Int) : ℚ),
                  Sensitivity.Opt16bit.scalar * (1 / 2) * ((readI16 255 127 : Int) : ℚ),
                  Sensitivity.Opt16bit.scalar * 2 * ((readI16 0 0 : Int) : ℚ)],
          mag_raw := [readI16 1 128, readI16 255 127, readI16 0 0],
          data_overrun := false }) :=
  ⟨by decide,
   (C2_decode_formula 1 128 255 127 0 0 0 1 (1 / 2) 2 Sensitivity.Opt16bit (by decide)).1⟩

/-- C4: when the status byte has the data-ready bit clear, `read_sample` fails
with `DataNotReady`, and the bus trace is exactly the status-register write and
1-byte read — in particular no `Hxl` address write and no 7-byte data read. -/
theorem C4_not_ready_no_data_read (ak : Ak8963) (d : SampleBus)
    (h1 : d.st1WriteErr = none) (h2 : d.statusErr = none)
    (hr : d.status.testBit 0 = false) :
    (ak.read_sample d).2.2 = Except.error ReadSampleError.DataNotReady ∧
    (ak.read_sample d).2.1 = [BusOp.write [Ak8963Reg.St1], BusOp.read 1] ∧
    BusOp.write [Ak8963Reg.Hxl] ∉ (ak.read_sample d).2.1 ∧
    BusOp.read 7 ∉ (ak.read_sample d).2.1 := by
  have hres : ak.read_sample d =
      (ak, [BusOp.write [Ak8963Reg.St1], BusOp.read 1],
       Except.error ReadSampleError.DataNotReady) := by
    simp [Ak8963.read_sample, h1, h2, hr]
  rw [hres]
  refine ⟨rfl, rfl, ?_, ?_⟩
  · show BusOp.write [Ak8963Reg.Hxl] ∉ [BusOp.write [Ak8963Reg.St1], BusOp.read 1]
    decide
  · show BusOp.read 7 ∉ [BusOp.write [Ak8963Reg.St1], BusOp.read 1]
    decide

/-- Witness for C4 with a fault-free device whose status byte is `0x00`. -/
theorem C4_not_ready_no_data_read_witness :
    (Ak8963.read_sample { factory_adjust := [1, 1, 1],
                          sensitivity := Sensitivity.Opt16bit }
        { st1WriteErr := none, statusErr := none, status := 0,
          hxlWriteErr := none, dataErr := none, data := [] }).2.2 =
      Except.error ReadSampleError.DataNotReady :=
  (C4_not_ready_no_data_read
    { factory_adjust := [1, 1, 1], sensitivity := Sensitivity.Opt16bit }
    { st1WriteErr := none, statusErr := none, status := 0,
      hxlWriteErr := none, dataErr := none, data := [] }
    rfl rfl (by decide)).1

/-- C5: with data ready, overrun flagged in the status byte, and a
non-saturated data block, `read_sample` returns a sample whose `data_overrun`
is `true`; the decoder (`parse_sample_helper`) itself always produces samples
with `data_overrun = false` — the flag is set afterwards from the status
byte. -/
theorem C5_overrun_flag (ak : Ak8963) (d : SampleBus)
    (h1 : d.st1WriteErr = none) (h2 : d.statusErr = none)
    (h3 : d.hxlWriteErr = none) (h4 : d.dataErr = none)
    (hr : d.status.testBit 0 = true) (ho : d.status.testBit 1 = true)
    (hs : ((buf7 d.data).getD 6 0).testBit 3 = false) :
    (∃ smp : Ak8963Sample, (ak.read_sample d).2.2 = Except.ok (some smp) ∧
        smp.data_overrun = true) ∧
    (∀ (data : List Nat) (s : Sensitivity) (fa : List ℚ) (r : Ak8963Sample),
      Ak8963.parse_sample_helper data s fa = some (some r) →
        r.data_overrun = false) := by
  constructor
  · have hs2 : (((buf7 d.data)[6]?).getD 0).testBit 3 = false := by
      rw [← List.getD_eq_getElem?_getD]
      exact hs
    simp [Ak8963.read_sample, h1, h2, h3, h4, hr,
      Ak8963.parse_sample_helper_inbounds, hs2, applyDataOverrun, ho]
  · intro data s fa r h
    rcases lt_or_le data.length 7 with hl | hl
    · rw [parse_sample_helper_short data s fa hl] at h
      exact Option.noConfusion h
    · rw [parse_sample_helper_eq_inbounds data s fa hl] at h
      unfold Ak8963.parse_sample_helper_inbounds at h
      split at h
      · simp at h
      · simp only [Option.some.injEq] at h
        rw [← h]

/-- Witness for C5: fault-free device, status byte `0x03` (DRDY and DOR set),
all-zero data block. -/
theorem C5_overrun_flag_witness :
    ∃ smp : Ak8963Sample,
      (Ak8963.read_sample { factory_adjust := [1, 1, 1],
                            sensitivity := Sensitivity.Opt16bit }
          { st1WriteErr := none, statusErr := none, status := 3,
            hxlWriteErr := none, dataErr := none,
            data := [0, 0, 0, 0, 0, 0, 0] }).2.2 = Except.ok (some smp) ∧
      smp.data_overrun = true :=
  (C5_overrun_flag
    { factory_adjust := [1, 1, 1], sensitivity := Sensitivity.Opt16bit }
    { st1WriteErr := none, statusErr := none, status := 3,
      hxlWriteErr := none, dataErr := none, data := [0, 0, 0, 0, 0, 0, 0] }
    rfl rfl rfl rfl (by decide) (by decide) (by decide)).1

theorem applyDataOverrun_eq_none (st : Nat) (s : Option Ak8963Sample) :
    applyDataOverrun st s = none ↔ s = none := by
  cases s
  · simp [applyDataOverrun]
  · simp only [applyDataOverrun]
    split <;> simp

theorem parse_sample_helper_inbounds_eq_none (data : List Nat) (s : Sensitivity)
    (fa : List ℚ) :
    Ak8963.parse_sample_helper_inbounds data s fa = none ↔
      (data.getD 6 0).testBit 3 = true := by
  unfold Ak8963.parse_sample_helper_inbounds
  split <;> simp_all

/-- C7: `read_sample` discriminates its outcomes with distinct
representations: a bus error is propagated unchanged inside `I2c`, a clear
data-ready bit yields `DataNotReady`, saturation yields the explicit
no-sample success `Ok(None)` (and exactly then), every other outcome is a
decoded sample `Ok(Some _)`, and the four representations are pairwise
distinct. -/
theorem C7_outcome_discrimination (ak : Ak8963) (d : SampleBus) :
    (∀ e, d.st1WriteErr = some e →
      (ak.read_sample d).2.2 = Except.error (ReadSampleError.I2c e)) ∧
    (∀ e, d.st1WriteErr = none → d.statusErr = some e →
      (ak.read_sample d).2.2 = Except.error (ReadSampleError.I2c e)) ∧
    (∀ e, d.st1WriteErr = none → d.statusErr = none →
      d.status.testBit 0 = true → d.hxlWriteErr = some e →
      (ak.read_sample d).2.2 = Except.error (ReadSampleError.I2c e)) ∧
    (∀ e, d.st1WriteErr = none → d.statusErr = none →
      d.status.testBit 0 = true → d.hxlWriteErr = none → d.dataErr = some e →
      (ak.read_sample d).2.2 = Except.error (ReadSampleError.I2c e)) ∧
    ((ak.read_sample d).2.2 = Except.ok none ↔
      d.st1WriteErr = none ∧ d.statusErr = none ∧ d.status.testBit 0 = true ∧
      d.hxlWriteErr = none ∧ d.dataErr = none ∧
      ((buf7 d.data).getD 6 0).testBit 3 = true) ∧
    (d.st1WriteErr = none → d.statusErr = none → d.status.testBit 0 = true →
      d.hxlWriteErr = none → d.dataErr = none →
      ((buf7 d.data).getD 6 0).testBit 3 = false →
      ∃ smp, (ak.read_sample d).2.2 = Except.ok (some smp)) ∧
    (∀ e : LinuxI2CError,
      (Except.error (ReadSampleError.I2c e) :
          Except ReadSampleError (Option Ak8963Sample)) ≠
        Except.error ReadSampleError.DataNotReady ∧
      (Except.ok none : Except ReadSampleError (Option Ak8963Sample)) ≠
        Except.error (ReadSampleError.I2c e)) ∧
    ((Except.ok none : Except ReadSampleError (Option Ak8963Sample)) ≠
      Except.error ReadSampleError.DataNotReady) ∧
    (∀ smp : Ak8963Sample,
      (Except.ok (some smp) : Except ReadSampleError (Option Ak8963Sample)) ≠
        Except.ok none) := by
  refine ⟨?_, ?_, ?_, ?_, ?_, ?_, ?_, ?_, ?_⟩
  · intro e he
    simp [Ak8963.read_sample, he]
  · intro e h1 he
    simp [Ak8963.read_sample, h1, he]
  · intro e h1 h2 hb he
    simp [Ak8963.read_sample, h1, h2, hb, he]
  · intro e h1 h2 hb h3 he
    simp [Ak8963.read_sample, h1, h2, hb, h3, he]
  · rcases d with ⟨e1, e2, st, e3, e4, data⟩
    cases e1 <;> cases e2 <;> cases e3 <;> cases e4 <;>
      by_cases hb : st.testBit 0 <;>
      simp_all [Ak8963.read_sample, applyDataOverrun_eq_none,
        parse_sample_helper_inbounds_eq_none]
  · intro h1 h2 hb h3 h4 h6
    have hres : (ak.read_sample d).2.2 =
        Except.ok (applyDataOverrun d.status
          (Ak8963.parse_sample_helper_inbounds (buf7 d.data) ak.sensitivity
            ak.factory_adjust)) := by
      simp [Ak8963.read_sample, h1, h2, h3, h4, hb]
    rw [hres]
    obtain ⟨x, hx⟩ : ∃ x, Ak8963.parse_sample_helper_inbounds (buf7 d.data)
        ak.sensitivity ak.factory_adjust = some x := by
      rcases ho : Ak8963.parse_sample_helper_inbounds (buf7 d.data)
          ak.sensitivity ak.factory_adjust with _ | x
      · have hbit := (parse_sample_helper_inbounds_eq_none _ _ _).mp ho
        rw [h6] at hbit
        exact Bool.noConfusion hbit
      · exact ⟨x, rfl⟩
    rw [hx]
    simp only [applyDataOverrun]
    split <;> exact ⟨_, rfl⟩
  · intro e
    exact ⟨by simp, by simp⟩
  · simp
  · intro smp
    simp

/-- Witness for C7: a device failing the status-register write with error
code 5 yields exactly that error wrapped in `I2c`. -/
theorem C7_outcome_discrimination_witness :
    (Ak8963.read_sample { factory_adjust := [1, 1, 1],
                          sensitivity := Sensitivity.Opt14bit }
        { st1WriteErr := some { code := 5 }, statusErr := none, status := 1,
          hxlWriteErr := none, dataErr := none,
          data := [0, 0, 0, 0, 0, 0, 0] }).2.2 =
      Except.error (ReadSampleError.I2c { code := 5 }) :=
  (C7_outcome_discrimination
    { factory_adjust := [1, 1, 1], sensitivity := Sensitivity.Opt14bit }
    { st1WriteErr := some { code := 5 }, statusErr := none, status := 1,
      hxlWriteErr := none, dataErr := none,
      data := [0, 0, 0, 0, 0, 0, 0] }).1 { code := 5 } rfl

/-- C8: offline decode is a pure function of its inputs — repeated calls agree
bit-for-bit, the controller state is returned unchanged (by `parse_sample_data`
and by `read_sample` alike) — and on the 7-byte buffer of a fault-free ready
`read_sample` the offline decode result is exactly the decode step performed
inside `read_sample`, whose value `read_sample` then returns with only the
overrun flag applied on top. -/
theorem C8_parse_sample_data_pure (ak : Ak8963) (data : List Nat) (d : SampleBus)
    (h1 : d.st1WriteErr = none) (h2 : d.statusErr = none)
    (h3 : d.hxlWriteErr = none) (h4 : d.dataErr = none)
    (hr : d.status.testBit 0 = true) :
    Ak8963.parse_sample_data ak data = Ak8963.parse_sample_data ak data ∧
    (Ak8963.parse_sample_data ak data).1 = ak ∧
    (ak.read_sample d).1 = ak ∧
    (Ak8963.parse_sample_data ak (buf7 d.data)).2 =
      some (Ak8963.parse_sample_helper_inbounds (buf7 d.data) ak.sensitivity
        ak.factory_adjust) ∧
    (ak.read_sample d).2.2 =
      Except.ok (applyDataOverrun d.status
        (Ak8963.parse_sample_helper_inbounds (buf7 d.data) ak.sensitivity
          ak.factory_adjust)) := by
  refine ⟨rfl, rfl, read_sample_fst ak d, ?_, ?_⟩
  · unfold Ak8963.parse_sample_data
    exact parse_sample_helper_eq_inbounds _ _ _ (le_of_eq (buf7_length _).symm)
  · simp [Ak8963.read_sample, h1, h2, h3, h4, hr]

/-- Witness for C8 with a fault-free ready device and an all-zero block. -/
theorem C8_parse_sample_data_pure_witness :
    (Ak8963.parse_sample_data
        { factory_adjust := [1, 1, 1], sensitivity := Sensitivity.Opt14bit }
        [9, 9, 9]).1 =
      { factory_adjust := [1, 1, 1], sensitivity := Sensitivity.Opt14bit } ∧
    (Ak8963.parse_sample_data
        { factory_adjust := [1, 1, 1], sensitivity := Sensitivity.Opt14bit }
        (buf7 [0, 0, 0, 0, 0, 0, 0])).2 =
      some (Ak8963.parse_sample_helper_inbounds (buf7 [0, 0, 0, 0, 0, 0, 0])
        Sensitivity.Opt14bit [1, 1, 1]) := by
  have h := C8_parse_sample_data_pure
    { factory_adjust := [1, 1, 1], sensitivity := Sensitivity.Opt14bit }
    [9, 9, 9]
    { st1WriteErr := none, statusErr := none, status := 1,
      hxlWriteErr := none, dataErr := none, data := [0, 0, 0, 0, 0, 0, 0] }
    rfl rfl rfl rfl (by decide)
  exact ⟨h.2.1, h.2.2.2.1⟩

/-- C9: a successfully constructed controller has a factory-calibration vector
of length exactly 3, the bus trace of construction contains exactly one
calibration read, that read precedes the continuous-measurement mode-byte
write, and no later operation (`read_sample`, `parse_sample_data`) modifies
the stored vector or reads the calibration block again. -/
theorem C9_calibration_once_before_mode (d : NewBus) (s : Sensitivity)
    (r : SampleRate) (tr : List BusOp) (ak : Ak8963)
    (h : Ak8963.new d s r = (tr, Except.ok ak)) :
    ak.factory_adjust.length = 3 ∧
    tr.count (BusOp.read 3) = 1 ∧
    (∃ i j, i < j ∧ tr.get? i = some (BusOp.read 3) ∧
      tr.get? j = some (BusOp.write [Ak8963Reg.Cntl1, cntl1Byte s r])) ∧
    (∀ d2 : SampleBus, (ak.read_sample d2).1 = ak) ∧
    (∀ data : List Nat, (Ak8963.parse_sample_data ak data).1 = ak) ∧
    (∀ d2 : SampleBus, BusOp.read 3 ∉ (ak.read_sample d2).2.1) := by
  rcases d with ⟨e1, e2, e3, e4, e5, e6, calib⟩
  cases e1 <;> cases e2 <;> cases e3 <;> cases e4 <;> cases e5 <;> cases e6 <;>
    simp only [Ak8963.new, Prod.mk.injEq, Except.ok.injEq] at h <;>
    [skip; exact absurd h.2 (by simp); exact absurd h.2 (by simp);
     exact absurd h.2 (by simp); exact absurd h.2 (by simp);
     exact absurd h.2 (by simp); exact absurd h.2 (by simp);
     exact absurd h.2 (by simp); exact absurd h.2 (by simp);
     exact absurd h.2 (by simp); exact absurd h.2 (by simp);
     exact absurd h.2 (by simp); exact absurd h.2 (by simp);
     exact absurd h.2 (by simp); exact absurd h.2 (by simp);
     exact absurd h.2 (by simp); exact absurd h.2 (by simp);
     exact absurd h.2 (by simp); exact absurd h.2 (by simp);
     exact absurd h.2 (by simp); exact absurd h.2 (by simp);
     exact absurd h.2 (by simp); exact absurd h.2 (by simp);
     exact absurd h.2 (by simp); exact absurd h.2 (by simp);
     exact absurd h.2 (by simp); exact absurd h.2 (by simp);
     exact absurd h.2 (by simp); exact absurd h.2 (by simp);
     exact absurd h.2 (by simp); exact absurd h.2 (by simp);
     exact absurd h.2 (by simp); exact absurd h.2 (by simp);
     exact absurd h.2 (by simp); exact absurd h.2 (by simp);
     exact absurd h.2 (by simp); exact absurd h.2 (by simp);
     exact absurd h.2 (by simp); exact absurd h.2 (by simp);
     exact absurd h.2 (by simp); exact absurd h.2 (by simp);
     exact absurd h.2 (by simp); exact absurd h.2 (by simp);
     exact absurd h.2 (by simp); exact absurd h.2 (by simp);
     exact absurd h.2 (by simp); exact absurd h.2 (by simp);
     exact absurd h.2 (by simp); exact absurd h.2 (by simp);
     exact absurd h.2 (by simp); exact absurd h.2 (by simp);
     exact absurd h.2 (by simp); exact absurd h.2 (by simp);
     exact absurd h.2 (by simp); exact absurd h.2 (by simp);
     exact absurd h.2 (by simp); exact absurd h.2 (by simp);
     exact absurd h.2 (by simp); exact absurd h.2 (by simp);
     exact absurd h.2 (by simp); exact absurd h.2 (by simp);
     exact absurd h.2 (by simp); exact absurd h.2 (by simp);
     exact absurd h.2 (by simp)]
  obtain ⟨htr, hak⟩ := h
  subst hak
  subst htr
  refine ⟨?_, ?_, ⟨3, 5, by omega, rfl, rfl⟩, ?_, ?_, ?_⟩
  · simp [Ak8963.read_sensitivity_adjustment_vals]
  · cases s <;> cases r <;> decide
  · intro d2
    exact read_sample_fst _ d2
  · intro data
    rfl
  · intro d2
    rcases read_sample_trace_cases
        { factory_adjust := Ak8963.read_sensitivity_adjustment_vals (buf3 calib),
          sensitivity := s } d2 with ht | ht | ht | ht <;>
      rw [ht] <;> decide

/-- Witness for C9: a fault-free construction with calibration bytes
`[128, 128, 128]`, 16-bit sensitivity and 100 Hz sampling. -/
theorem C9_calibration_once_before_mode_witness :
    ({ factory_adjust :=
         Ak8963.read_sensitivity_adjustment_vals (buf3 [128, 128, 128]),
       sensitivity := Sensitivity.Opt16bit } : Ak8963).factory_adjust.length = 3 ∧
    ([BusOp.write [Ak8963Reg.Cntl1, RegCntl1.PowerDn],
      BusOp.write [Ak8963Reg.Cntl1, RegCntl1.FuseRom],
      BusOp.write [Ak8963Reg.Asax],
      BusOp.read 3,
      BusOp.write [Ak8963Reg.Cntl1, RegCntl1.PowerDn],
      BusOp.write [Ak8963Reg.Cntl1,
        cntl1Byte Sensitivity.Opt16bit SampleRate.Opt100Hz]]).count
      (BusOp.read 3) = 1 := by
  have h := C9_calibration_once_before_mode
    { e1 := none, e2 := none, e3 := none, e4 := none, e5 := none, e6 := none,
      calib := [128, 128, 128] }
    Sensitivity.Opt16bit SampleRate.Opt100Hz
    [BusOp.write [Ak8963Reg.Cntl1, RegCntl1.PowerDn],
     BusOp.write [Ak8963Reg.Cntl1, RegCntl1.FuseRom],
     BusOp.write [Ak8963Reg.Asax],
     BusOp.read 3,
     BusOp.write [Ak8963Reg.Cntl1, RegCntl1.PowerDn],
     BusOp.write [Ak8963Reg.Cntl1,
       cntl1Byte Sensitivity.Opt16bit SampleRate.Opt100Hz]]
    { factory_adjust :=
        Ak8963.read_sensitivity_adjustment_vals (buf3 [128, 128, 128]),
      sensitivity := Sensitivity.Opt16bit }
    (by rfl)
  exact ⟨h.1, h.2.1⟩

/-- C10: the offline decoder indexes its input slice unchecked: on every slice
shorter than 7 bytes it panics (modelled by `none`), both through
`parse_sample_helper` and through the public `parse_sample_data`; on every
slice of at least 7 bytes it returns a defined result. -/
theorem C10_short_input_panics (data : List Nat) (s : Sensitivity)
    (fa : List ℚ) (ak : Ak8963) :
    (data.length < 7 →
      Ak8963.parse_sample_helper data s fa = none ∧
      (Ak8963.parse_sample_data ak data).2 = none) ∧
    (7 ≤ data.length →
      ∃ r, Ak8963.parse_sample_helper data s fa = some r) := by
  refine ⟨fun h => ⟨parse_sample_helper_short data s fa h, ?_⟩,
    fun h => ⟨_, parse_sample_helper_eq_inbounds data s fa h⟩⟩
  exact parse_sample_helper_short data ak.sensitivity ak.factory_adjust h

/-- Witness for C10: a 3-byte slice panics, a 7-byte slice is decoded. -/
theorem C10_short_input_panics_witness :
    ([0, 0, 0] : List Nat).length < 7 ∧
    Ak8963.parse_sample_helper [0, 0, 0] Sensitivity.Opt16bit [1, 1, 1] = none ∧
    7 ≤ ([0, 0, 0, 0, 0, 0, 0] : List Nat).length ∧
    ∃ r, Ak8963.parse_sample_helper [0, 0, 0, 0, 0, 0, 0] Sensitivity.Opt16bit
      [1, 1, 1] = some r := by
  refine ⟨by decide, ?_, by decide, ?_⟩
  · exact ((C10_short_input_panics [0, 0, 0] Sensitivity.Opt16bit [1, 1, 1]
      ⟨[1], Sensitivity.Opt16bit⟩).1 (by decide)).1
  · exact (C10_short_input_panics [0, 0, 0, 0, 0, 0, 0] Sensitivity.Opt16bit
      [1, 1, 1] ⟨[1], Sensitivity.Opt16bit⟩).2 (by decide)
